import Mathlib

/-!
Verification of the sensor-collection subsystem of the beszel agent
(`internal/agent/sensors.go`): configuration parsing, the sensor filter,
temperature normalisation and collection, and generic (file-backed)
sensor collection.

Modelling conventions:
- Go `float64` is modelled as `ℚ` (exact arithmetic; the comparisons and
  branch structure of the code carry over unchanged).
- Go maps are modelled as association lists in insertion order with
  overwrite-on-insert semantics (`insertKV`); `map[string]struct{}` as a
  duplicate-free `List String`.
- A `nil` Go map is distinguished from an allocated empty map by wrapping
  the association list in `Option`.
- Go strings are Lean `String`s; the Go standard library string helpers
  used by the code (`TrimSpace`, `Split`, `HasPrefix`, ...) are re-implemented
  structurally over `String.toList` so that everything reduces by `decide`.
- The filesystem under `/generic-sensors` is a function
  `String → Option DirEntry`; the external temperature source is a stream
  of call outcomes, each either a panic or a returned reading list.
-/

deriving instance DecidableEq for Except

namespace BeszelAgent

/-! ## Go standard-library string helpers (structural re-implementations) -/

/-- Splits a character list at every occurrence of `sep`; models Go
`strings.Split`/`strings.SplitSeq` (which yield `[""]` on the empty string). -/
def splitCharAux (sep : Char) : List Char → List Char → List (List Char)
  | [], acc => [acc.reverse]
  | c :: cs, acc =>
    if c = sep then acc.reverse :: splitCharAux sep cs []
    else splitCharAux sep cs (c :: acc)

/-- Models Go `strings.Split(s, ",")` (with a single-character separator). -/
def goSplit (s : String) (sep : Char) : List String :=
  (splitCharAux sep s.toList []).map (fun l => ⟨l⟩)

/-- Drops whitespace from both ends of a character list. -/
def trimChars (l : List Char) : List Char :=
  ((l.dropWhile Char.isWhitespace).reverse.dropWhile Char.isWhitespace).reverse

/-- Models Go `strings.TrimSpace`. -/
def goTrim (s : String) : String := ⟨trimChars s.toList⟩

/-- Models Go `strings.HasPrefix`. -/
def goHasPre (s p : String) : Bool := p.toList.isPrefixOf s.toList

/-- Models Go `strings.HasSuffix`. -/
def goHasSuf (s p : String) : Bool := p.toList.reverse.isPrefixOf s.toList.reverse

/-- Models Go `s[1:]` for a string whose first character is one byte wide. -/
def goDropFirst (s : String) : String := ⟨s.toList.drop 1⟩

/-- Models Go `sensor[1 : len(sensor)-1]` (strip one leading and one trailing
one-byte character). -/
def stripEnds (s : String) : String := ⟨(s.toList.drop 1).dropLast⟩

/-- Models Go `strings.Contains(s, c)` for a single-character needle. -/
def goContainsChar (s : String) (c : Char) : Bool := s.toList.contains c

/-- Numeric value of a list of decimal digits. -/
def digitsVal (l : List Char) : Nat :=
  l.foldl (fun a c => a * 10 + (c.toNat - 48)) 0

/-- Parses an unsigned decimal literal `digits[.digits]` (either side of the
dot may be empty, but not both) as an exact rational. -/
def parseDecimal? (l : List Char) : Option ℚ :=
  let ip := l.takeWhile Char.isDigit
  let rest := l.dropWhile Char.isDigit
  match rest with
  | [] => if ip.isEmpty then none else some (digitsVal ip : ℚ)
  | '.' :: fr =>
    let fp := fr.takeWhile Char.isDigit
    let rest2 := fr.dropWhile Char.isDigit
    if ¬ rest2.isEmpty then none
    else if ip.isEmpty ∧ fp.isEmpty then none
    else some ((digitsVal ip : ℚ) + (digitsVal fp : ℚ) / ((10 : ℚ) ^ fp.length))
  | _ => none

/-- Modelled from the spec: numeric fields are "parsed as base-10 floating
point" (Go `strconv.ParseFloat`, which is outside the provided sources);
restricted to plain decimal literals with an optional sign — exponent,
infinity and hexadecimal forms are not modelled. -/
def parseFloat? (s : String) : Option ℚ :=
  match s.toList with
  | '+' :: rest => parseDecimal? rest
  | '-' :: rest => (parseDecimal? rest).map (fun q => -q)
  | l => parseDecimal? l

/-- Modelled from the spec: "shell-glob matching" (Go `path.Match`, outside
the provided sources), restricted to literal characters, `?` and `*`
(`*` and `?` do not match `/`); character classes and escapes are not
modelled. Fuel-based so that it reduces structurally; the initial fuel
`|pattern| + |name| + 1` exceeds the recursion depth, which shrinks
`|pattern| + |name|` at every call. -/
def globMatchAux : Nat → List Char → List Char → Bool
  | 0, _, _ => false
  | _ + 1, [], [] => true
  | _ + 1, [], _ :: _ => false
  | n + 1, '*' :: ps, s =>
    globMatchAux n ps s ||
      (match s with
       | [] => false
       | c :: cs => decide (c ≠ '/') && globMatchAux n ('*' :: ps) cs)
  | n + 1, '?' :: ps, s =>
    (match s with
     | [] => false
     | c :: cs => decide (c ≠ '/') && globMatchAux n ps cs)
  | _ + 1, _ :: _, [] => false
  | n + 1, p :: ps, c :: cs => p == c && globMatchAux n ps cs

/-- Models Go `path.Match pattern name` (see `globMatchAux`). -/
def globMatch (pat name : String) : Bool :=
  globMatchAux (pat.toList.length + name.toList.length + 1) pat.toList name.toList

/-! ## Association-list maps (Go map semantics) -/

/-- Go map membership test. -/
def hasKey {α : Type} (l : List (String × α)) (k : String) : Bool :=
  l.any (fun p => p.1 == k)

/-- Go map lookup. -/
def lookupKV {α : Type} (l : List (String × α)) (k : String) : Option α :=
  (l.find? (fun p => p.1 == k)).map (fun p => p.2)

/-- Go map insertion (`m[k] = v`): overwrite an existing binding, otherwise
append. -/
def insertKV {α : Type} (l : List (String × α)) (k : String) (v : α) :
    List (String × α) :=
  if l.any (fun p => p.1 == k) then
    l.map (fun p => if p.1 == k then (k, v) else p)
  else l ++ [(k, v)]

/-! ## Data model (`sensors.go` types) -/

/-- `GenericSensorConfig` from `sensors.go`. -/
structure GenericSensorConfig where
  Name : String
  Unit : String
  Maximum : ℚ
  Minimum : ℚ
deriving DecidableEq

/-- `SensorConfig` from `sensors.go`; the `context` field (only used to pass
an alternative sysfs root to the external source) is not modelled. -/
structure SensorConfig where
  sensors : List String
  genericSensors : List (String × GenericSensorConfig)
  primarySensor : String
  isBlacklist : Bool
  hasWildcards : Bool
  skipCollection : Bool
deriving DecidableEq

/-- `system.SensorData` as used by `sensors.go` (entity definition is outside
the provided sources; the four fields are taken from the stores in
`updateGenericSensors`). -/
structure SensorData where
  Value : ℚ
  Unit : String
  Min : ℚ
  Max : ℚ
deriving DecidableEq

/-- The two snapshot fields of `system.Stats` written by `sensors.go`.
`none` models a `nil` Go map, `some` an allocated one. -/
structure Stats where
  Temperatures : Option (List (String × ℚ))
  GenericSensors : Option (List (String × SensorData))
deriving DecidableEq

/-- `sensors.TemperatureStat` as consumed by `updateTemperatures`. -/
structure TemperatureStat where
  SensorKey : String
  Temperature : ℚ
deriving DecidableEq

/-- Go `len` of a possibly-`nil` map. -/
def mapLen {α : Type} : Option (List α) → Nat
  | none => 0
  | some l => l.length

/-! ## Config parsing (`newSensorConfigWithEnv`, `parseGenericSensor`) -/

/-- `parseGenericSensor` from `sensors.go`: parses one `(name,unit,maximum,minimum)`
token. The Go method mutates `config.genericSensors` as its final statement;
here the parsed definition is returned and the caller performs the insertion.
Error messages are abbreviated. -/
def parseGenericSensor (sensor : String) : Except String GenericSensorConfig :=
  let content := stripEnds sensor
  let parts := goSplit content ','
  if parts.length ≠ 4 then .error "expected 4 parts"
  else
    let name := goTrim (parts.getD 0 "")
    let unit := goTrim (parts.getD 1 "")
    let maximumStr := goTrim (parts.getD 2 "")
    let minimumStr := goTrim (parts.getD 3 "")
    if name = "" then .error "sensor name cannot be empty"
    else if unit = "" then .error "sensor unit cannot be empty"
    else
      match parseFloat? maximumStr with
      | none => .error "invalid maximum value"
      | some maximum =>
        match parseFloat? minimumStr with
        | none => .error "invalid minimum value"
        | some minimum =>
          if minimum ≥ maximum then .error "minimum must be less than maximum"
          else .ok ⟨name, unit, maximum, minimum⟩

/-- One iteration of the token loop in `newSensorConfigWithEnv`. -/
def processToken (config : SensorConfig) (sensor : String) : SensorConfig :=
  let sensor := goTrim sensor
  if sensor = "" then config
  else if goHasPre sensor "(" && goHasSuf sensor ")" then
    match parseGenericSensor sensor with
    | .error _ => config
    | .ok g => { config with genericSensors := insertKV config.genericSensors g.Name g }
  else
    { config with
        sensors := if config.sensors.contains sensor then config.sensors
                   else config.sensors ++ [sensor],
        hasWildcards := config.hasWildcards || goContainsChar sensor '*' }

/-- `newSensorConfigWithEnv` from `sensors.go` (the `sysSensors` argument only
configures the external source's sysfs root and is otherwise unused). -/
def newSensorConfigWithEnv (primarySensor sysSensors sensorsEnvVal : String)
    (skipCollection : Bool) : SensorConfig :=
  let isBlacklist := goHasPre sensorsEnvVal "-"
  let envVal := if isBlacklist then goDropFirst sensorsEnvVal else sensorsEnvVal
  List.foldl processToken
    ⟨[], [], primarySensor, isBlacklist, false, skipCollection⟩
    (goSplit envVal ',')

/-! ## Filter evaluator (`isValidSensor`) -/

/-- `isValidSensor` from `sensors.go`. -/
def isValidSensor (sensorName : String) (config : SensorConfig) : Bool :=
  if hasKey config.genericSensors sensorName then true
  else if config.sensors.isEmpty then true
  else if config.sensors.contains sensorName then !config.isBlacklist
  else if !config.hasWildcards then config.isBlacklist
  else if (config.sensors.find?
      (fun pat => goContainsChar pat '*' && globMatch pat sensorName)).isSome then
    !config.isBlacklist
  else config.isBlacklist

/-! ## Temperature scaling and rounding -/

/-- `scaleTemperature` from `sensors.go`. -/
def scaleTemperature (temp : ℚ) : ℚ :=
  if temp > 1 then temp
  else
    let scaled100 := temp * 100
    let scaled1000 := temp * 1000
    if 15 ≤ scaled100 ∧ scaled100 ≤ 95 then scaled100
    else if 15 ≤ scaled1000 ∧ scaled1000 ≤ 95 then scaled1000
    else scaled100

/-- Modelled from the spec: `twoDecimals` (defined outside the provided
sources) rounds "to two decimal places"; rounding half away from zero. -/
def twoDecimals (v : ℚ) : ℚ :=
  if 0 ≤ v then ((⌊v * 100 + 1 / 2⌋ : ℤ) : ℚ) / 100
  else -(((⌊-v * 100 + 1 / 2⌋ : ℤ) : ℚ) / 100)

/-- The scaling guard in `updateTemperatures`
(`sensor.Temperature != 0 && sensor.Temperature < 1`). -/
def effectiveTemp (t : ℚ) : ℚ :=
  if t ≠ 0 ∧ t < 1 then scaleTemperature t else t

/-- The plausibility filter in `updateTemperatures`
(`sensor.Temperature <= 0 || sensor.Temperature >= 200`). -/
def implausibleTemp (t : ℚ) : Prop :=
  t ≤ 0 ∨ 200 ≤ t

instance (t : ℚ) : Decidable (implausibleTemp t) := by
  unfold implausibleTemp
  infer_instance

/-! ## Temperature collection (`updateTemperatures`) -/

/-- One call outcome of the external temperature source
(`sensors.TemperaturesWithContext`): either a runtime panic or a normal
return of readings together with a possible soft error. -/
inductive CallOutcome where
  | panics (msg : String)
  | returns (temps : List TemperatureStat) (err : Option String)
deriving DecidableEq

/-- `getTempsWithPanicRecovery` from `sensors.go`: a panic becomes an error;
the soft error of a normal return is intentionally discarded. -/
def getTempsWithPanicRecovery : CallOutcome → Except String (List TemperatureStat)
  | .panics msg => .error ("panic: " ++ msg)
  | .returns temps _ => .ok temps

/-- Loop accumulator of `updateTemperatures`: the freshly allocated
temperature map and the running dashboard temperature. -/
structure TempAcc where
  temps : List (String × ℚ)
  dash : ℚ
deriving DecidableEq

/-- The output-key computation in `updateTemperatures`: append `_<i>` when
the key is already present in the map built so far. -/
def outName (temps : List (String × ℚ)) (key : String) (i : Nat) : String :=
  if hasKey temps key then key ++ "_" ++ toString i else key

/-- Pairs every element with its 0-based index (Go `for i, sensor := range`). -/
def enumFromIdx {α : Type} (i : Nat) : List α → List (Nat × α)
  | [] => []
  | a :: as => (i, a) :: enumFromIdx (i + 1) as

/-- One iteration of the reading loop in `updateTemperatures`. `skipKey`
models the darwin-only malformed-key filter
(`runtime.GOOS == "darwin" && !utf8.ValidString(...)`). -/
def tempStep (config : SensorConfig) (skipKey : String → Bool) (acc : TempAcc)
    (p : Nat × TemperatureStat) : TempAcc :=
  if skipKey p.2.SensorKey then acc
  else
    let t := effectiveTemp p.2.Temperature
    if implausibleTemp t then acc
    else
      let sensorName := outName acc.temps p.2.SensorKey p.1
      if isValidSensor sensorName config then
        let dash :=
          if config.primarySensor = "" then max acc.dash t
          else if config.primarySensor = sensorName then t
          else acc.dash
        ⟨insertKV acc.temps sensorName (twoDecimals t), dash⟩
      else acc

/-- The tail of `updateTemperatures` after a successful source call: return
early on zero readings, otherwise allocate a fresh map and run the loop.
The dashboard temperature was already reset to `0`. -/
def finishTemps (config : SensorConfig) (skipKey : String → Bool)
    (temps : List TemperatureStat) (stats : Stats) : Stats × ℚ :=
  if temps.length = 0 then (stats, 0)
  else
    let acc := List.foldl (tempStep config skipKey) ⟨[], 0⟩ (enumFromIdx 0 temps)
    ({ stats with Temperatures := some acc.temps }, acc.dash)

/-- `updateTemperatures` from `sensors.go`. `source n` is the outcome of the
`n`-th call to the external temperature source this cycle; the returned `Nat`
is the number of calls made. The second component is the resulting
`systemInfo.DashboardTemp` (passed in as `dash`, reset to `0` before the
first call). -/
def updateTemperatures (config : SensorConfig) (skipKey : String → Bool)
    (source : Nat → CallOutcome) (stats : Stats) (dash : ℚ) : Stats × ℚ × Nat :=
  if config.skipCollection then (stats, dash, 0)
  else
    match getTempsWithPanicRecovery (source 0) with
    | .ok temps =>
      let r := finishTemps config skipKey temps stats
      (r.1, r.2, 1)
    | .error _ =>
      match getTempsWithPanicRecovery (source 1) with
      | .ok temps =>
        let r := finishTemps config skipKey temps stats
        (r.1, r.2, 2)
      | .error _ =>
        (if 0 < mapLen stats.Temperatures then
           { stats with Temperatures := some [] }
         else stats, 0, 2)

/-! ## Generic sensor collection (`updateGenericSensors`) -/

/-- One entry under `/generic-sensors`: its byte content and whether it
carries execute permission. -/
structure DirEntry where
  content : String
  executable : Bool
deriving DecidableEq

/-- `ReadSensorFromFile` from `sensors.go`: read the file's bytes and parse
the whitespace-trimmed whole content as a float. `fs` is the filesystem.
Error messages are abbreviated. -/
def ReadSensorFromFile (fs : String → Option DirEntry) (filePath : String) :
    Except String ℚ :=
  match fs filePath with
  | none => .error "failed to read sensor file"
  | some e =>
    match parseFloat? (goTrim e.content) with
    | none => .error "failed to parse sensor value"
    | some v => .ok v

/-- `collectGenericSensorValue` from `sensors.go`: stat the conventional
path, then read it with `ReadSensorFromFile`. The execute permission of the
entry is never consulted. -/
def collectGenericSensorValue (fs : String → Option DirEntry)
    (sensorName : String) : Except String ℚ :=
  let sensorPath := "/generic-sensors/" ++ sensorName
  match fs sensorPath with
  | none => .error "sensor file not found"
  | some _ => ReadSensorFromFile fs sensorPath

/-- One iteration of the sensor loop in `updateGenericSensors`. -/
def genStep (fs : String → Option DirEntry) (stats : Stats)
    (nc : String × GenericSensorConfig) : Stats :=
  match collectGenericSensorValue fs nc.1 with
  | .error _ => stats
  | .ok value =>
    if value < nc.2.Minimum ∨ value > nc.2.Maximum then stats
    else
      { stats with
          GenericSensors :=
            some (insertKV (stats.GenericSensors.getD []) nc.1
              ⟨twoDecimals value, nc.2.Unit, nc.2.Minimum, nc.2.Maximum⟩) }

/-- `updateGenericSensors` from `sensors.go`. -/
def updateGenericSensors (config : SensorConfig)
    (fs : String → Option DirEntry) (stats : Stats) : Stats :=
  if config.genericSensors.length = 0 then stats
  else
    let stats :=
      if stats.GenericSensors = none then { stats with GenericSensors := some [] }
      else stats
    List.foldl (genStep fs) stats config.genericSensors

/-- Modelled from the spec: the per-cycle driver (outside the provided
sources) runs the temperature collector and then the generic sensor
collector over the same snapshot; both always run to completion. -/
def collectCycle (config : SensorConfig) (skipKey : String → Bool)
    (source : Nat → CallOutcome) (fs : String → Option DirEntry)
    (stats : Stats) (dash : ℚ) : Stats × ℚ × Nat :=
  let r := updateTemperatures config skipKey source stats dash
  (updateGenericSensors config fs r.1, r.2.1, r.2.2)

/-! ## Shared concrete fixtures -/

/-- The sensor configuration produced from an absent configuration string. -/
def emptyConfig : SensorConfig := ⟨[], [], "", false, false, false⟩

/-- A configuration holding the single generic sensor
`(voltage,V,12.5,0.5)`, registered through the code's own token parser. -/
def voltageConfig : SensorConfig := processToken emptyConfig "(voltage,V,12.5,0.5)"

/-- A filesystem in which every path is a plain (non-executable) file with
the given content. -/
def fsWith (content : String) : String → Option DirEntry :=
  fun _ => some ⟨content, false⟩

/-- A filesystem holding exactly one entry, at the conventional path of the
named generic sensor. -/
def singleEntryFs (name content : String) (ex : Bool) : String → Option DirEntry :=
  fun p => if p = "/generic-sensors/" ++ name then some ⟨content, ex⟩ else none

/-! ## Helper lemmas -/

/-- The first-match scan succeeds exactly when some element satisfies the
predicate. -/
theorem find?_isSome_any {α : Type} (l : List α) (p : α → Bool) :
    (l.find? p).isSome = l.any p := by
  induction l with
  | nil => rfl
  | cons x xs ih =>
    by_cases hx : p x = true
    · simp [List.find?_cons, hx]
    · simp [List.find?_cons, hx, ih]

/-- `List.any` is invariant under permutation of the list. -/
theorem perm_any {α : Type} (p : α → Bool) {l1 l2 : List α}
    (h : List.Perm l1 l2) : l1.any p = l2.any p := by
  cases h1 : l1.any p <;> cases h2 : l2.any p <;> try rfl
  · rw [List.any_eq_true] at h2
    obtain ⟨x, hx, hpx⟩ := h2
    have hl1 : l1.any p = true := List.any_eq_true.2 ⟨x, h.mem_iff.2 hx, hpx⟩
    rw [h1] at hl1
    exact absurd hl1 (by simp)
  · rw [List.any_eq_true] at h1
    obtain ⟨x, hx, hpx⟩ := h1
    have hl2 : l2.any p = true := List.any_eq_true.2 ⟨x, h.mem_iff.1 hx, hpx⟩
    rw [h2] at hl2
    exact absurd hl2 (by simp)

/-! ## Claims -/

/-- C1. The claim states that the per-cycle value read for a generic sensor
distinguishes entry kinds: plain and symlinked entries are read as files
(first trimmed line), while entries with execute permission are invoked as a
subprocess and their trimmed stdout is used. The code
(`collectGenericSensorValue` / `ReadSensorFromFile`) never consults the
execute permission: it always reads the entry's bytes and parses the
whitespace-trimmed whole content, so an executable script's text is parsed
(and fails) instead of its stdout, contradicting the repository's own
`GENERIC_SENSORS.md`. This theorem shows (1) the result is independent of
the execute bit, (2) an executable script yields a parse error rather than
its stdout value, and (3) a multi-line plain file also fails instead of
using its first line. -/
theorem C1_executables_never_invoked :
    (∀ (name content : String) (b1 b2 : Bool),
        collectGenericSensorValue (singleEntryFs name content b1) name =
          collectGenericSensorValue (singleEntryFs name content b2) name)
    ∧ collectGenericSensorValue
        (singleEntryFs "api_latency" "#!/bin/sh\necho 42" true) "api_latency" =
        .error "failed to parse sensor value"
    ∧ collectGenericSensorValue (singleEntryFs "v" "45\nextra" false) "v" =
        .error "failed to parse sensor value" := by
  refine ⟨?_, rfl, rfl⟩
  intro name content b1 b2
  have h1 : singleEntryFs name content b1 ("/generic-sensors/" ++ name) =
      some ⟨content, b1⟩ := by
    unfold singleEntryFs
    rw [if_pos rfl]
  have h2 : singleEntryFs name content b2 ("/generic-sensors/" ++ name) =
      some ⟨content, b2⟩ := by
    unfold singleEntryFs
    rw [if_pos rfl]
  unfold collectGenericSensorValue ReadSensorFromFile
  simp only [h1, h2]

/-- The filter decision procedure exactly as worded in claim C2 (steps 1–6),
with `polarity == WHITELIST` rendered as `!isBlacklist`. -/
def acceptSpec (name : String) (spec : SensorConfig) : Bool :=
  if hasKey spec.genericSensors name then true
  else if spec.sensors.isEmpty then true
  else if spec.sensors.contains name then !spec.isBlacklist
  else if !spec.hasWildcards then spec.isBlacklist
  else if spec.sensors.any
      (fun pat => goContainsChar pat '*' && globMatch pat name) then
    !spec.isBlacklist
  else spec.isBlacklist

/-- C2. The filter evaluator implements the six-step decision procedure of
the claim, and on the configuration `-cpu_temp,gpu_temp` it yields BLACKLIST
polarity with patterns `cpu_temp, gpu_temp`, rejects `gpu_temp` and accepts
`fan1`. -/
theorem C2_filter_decision_procedure :
    (∀ (name : String) (config : SensorConfig),
        isValidSensor name config = acceptSpec name config)
    ∧ (newSensorConfigWithEnv "" "" "-cpu_temp,gpu_temp" false).isBlacklist = true
    ∧ (newSensorConfigWithEnv "" "" "-cpu_temp,gpu_temp" false).sensors =
        ["cpu_temp", "gpu_temp"]
    ∧ isValidSensor "gpu_temp"
        (newSensorConfigWithEnv "" "" "-cpu_temp,gpu_temp" false) = false
    ∧ isValidSensor "fan1"
        (newSensorConfigWithEnv "" "" "-cpu_temp,gpu_temp" false) = true := by
  refine ⟨?_, by decide, by decide, by decide, by decide⟩
  intro name config
  unfold isValidSensor acceptSpec
  rw [find?_isSome_any]

/-- C3 counterexample. The claim states that a raw reading of `0.0045` is
mapped to `45.0` via the ×1000 fallback; in fact `0.0045 * 1000 = 4.5` is
outside `[15, 95]`, so the heuristic falls back to ×100 and returns `0.45`. -/
theorem C3_counterexample :
    scaleTemperature (9 / 2000 : ℚ) = 9 / 20 ∧ (9 / 20 : ℚ) ≠ 45 := by
  constructor
  · norm_num [scaleTemperature]
  · norm_num

/-- C3 as amended: the heuristic maps `0.45` to `45.0`, which passes the
plausibility filter `0 < v < 200`; it maps `0.045` (not `0.0045`) to `45.0`
via the ×1000 fallback; `0.0045` is left at `0.45` by the ×100 fallback. -/
theorem C3_scale_examples :
    scaleTemperature (9 / 20 : ℚ) = 45
    ∧ ¬ implausibleTemp 45
    ∧ scaleTemperature (9 / 200 : ℚ) = 45
    ∧ scaleTemperature (9 / 2000 : ℚ) = 9 / 20 := by
  refine ⟨by norm_num [scaleTemperature], by norm_num [implausibleTemp],
    by norm_num [scaleTemperature], by norm_num [scaleTemperature]⟩

/-- C7. For `0 < raw < 1` the heuristic returns `raw*100` when that lies in
`[15, 95]`, else `raw*1000` when that lies in `[15, 95]`, else falls back to
`raw*100`; and the per-reading pipeline applies the heuristic exactly when
the raw value is non-zero and less than 1. -/
theorem C7_scale_heuristic :
    (∀ raw : ℚ, 0 < raw → raw < 1 →
        scaleTemperature raw =
          (if 15 ≤ raw * 100 ∧ raw * 100 ≤ 95 then raw * 100
           else if 15 ≤ raw * 1000 ∧ raw * 1000 ≤ 95 then raw * 1000
           else raw * 100))
    ∧ (∀ t : ℚ, t ≠ 0 → t < 1 → effectiveTemp t = scaleTemperature t)
    ∧ (∀ t : ℚ, ¬ (t ≠ 0 ∧ t < 1) → effectiveTemp t = t) := by
  refine ⟨?_, ?_, ?_⟩
  · intro raw h0 h1
    unfold scaleTemperature
    rw [if_neg (not_lt.2 (le_of_lt h1))]
  · intro t h0 h1
    unfold effectiveTemp
    rw [if_pos ⟨h0, h1⟩]
  · intro t h
    unfold effectiveTemp
    rw [if_neg h]

/-- Witness for C7 at `raw = 1/2` and `t = 3`. -/
theorem C7_witness :
    scaleTemperature (1 / 2 : ℚ) =
      (if 15 ≤ (1 / 2 : ℚ) * 100 ∧ (1 / 2 : ℚ) * 100 ≤ 95 then (1 / 2 : ℚ) * 100
       else if 15 ≤ (1 / 2 : ℚ) * 1000 ∧ (1 / 2 : ℚ) * 1000 ≤ 95 then (1 / 2 : ℚ) * 1000
       else (1 / 2 : ℚ) * 100)
    ∧ effectiveTemp (1 / 2 : ℚ) = scaleTemperature (1 / 2 : ℚ)
    ∧ effectiveTemp (3 : ℚ) = 3 :=
  ⟨C7_scale_heuristic.1 (1 / 2) (by norm_num) (by norm_num),
   C7_scale_heuristic.2.1 (1 / 2) (by norm_num) (by norm_num),
   C7_scale_heuristic.2.2 3 (by norm_num)⟩

/-- C10. The verdict of `isValidSensor` does not depend on the enumeration
order of the pattern set: permuting the patterns leaves the result
unchanged, so the filter is a deterministic function of (name, config). -/
theorem C10_filter_order_independent
    (name : String) (gens : List (String × GenericSensorConfig))
    (sens1 sens2 : List String) (pr : String) (bl hw sk : Bool)
    (hperm : List.Perm sens1 sens2) :
    isValidSensor name ⟨sens1, gens, pr, bl, hw, sk⟩ =
      isValidSensor name ⟨sens2, gens, pr, bl, hw, sk⟩ := by
  have hlen := hperm.length_eq
  have hempty : sens1.isEmpty = sens2.isEmpty := by
    cases sens1 <;> cases sens2 <;> simp_all
  have hcont : sens1.contains name = sens2.contains name := by
    cases h1 : sens1.contains name <;> cases h2 : sens2.contains name <;> try rfl
    · rw [List.contains_eq_any_beq] at h1 h2
      rw [← perm_any _ hperm, h1] at h2
      exact h2
    · rw [List.contains_eq_any_beq] at h1 h2
      rw [← perm_any _ hperm, h1] at h2
      exact h2
  have hfind :
      (sens1.find? (fun pat => goContainsChar pat '*' && globMatch pat name)).isSome =
        (sens2.find? (fun pat => goContainsChar pat '*' && globMatch pat name)).isSome := by
    rw [find?_isSome_any, find?_isSome_any, perm_any _ hperm]
  unfold isValidSensor
  simp only
  rw [hempty, hcont, hfind]

/-- Witness for C10 on a two-pattern wildcard whitelist and its swap. -/
theorem C10_witness :
    isValidSensor "fan2" ⟨["a*", "fan*"], [], "", false, true, false⟩ =
      isValidSensor "fan2" ⟨["fan*", "a*"], [], "", false, true, false⟩ :=
  C10_filter_order_independent "fan2" [] ["a*", "fan*"] ["fan*", "a*"] "" false true
    false (List.Perm.swap "fan*" "a*" [])

/-- The token loop never changes the `primarySensor` and `skipCollection`
fields fixed before it runs. -/
theorem processTokens_frame (l : List String) (c : SensorConfig) :
    (List.foldl processToken c l).primarySensor = c.primarySensor
    ∧ (List.foldl processToken c l).skipCollection = c.skipCollection := by
  induction l generalizing c with
  | nil => exact ⟨rfl, rfl⟩
  | cons t ts ih =>
    have hstep : (processToken c t).primarySensor = c.primarySensor
        ∧ (processToken c t).skipCollection = c.skipCollection := by
      constructor
      · unfold processToken
        dsimp only
        repeat' first | split | rfl
      · unfold processToken
        dsimp only
        repeat' first | split | rfl
    rw [List.foldl_cons]
    rcases ih (processToken c t) with ⟨ha, hb⟩
    exact ⟨ha.trans hstep.1, hb.trans hstep.2⟩

/-- A non-empty parenthesised token that `parseGenericSensor` rejects leaves
the configuration unchanged. -/
theorem processToken_skips_bad_generic (c : SensorConfig) (t msg : String)
    (h0 : goTrim t ≠ "") (h1 : goHasPre (goTrim t) "(" = true)
    (h2 : goHasSuf (goTrim t) ")" = true)
    (h3 : parseGenericSensor (goTrim t) = .error msg) :
    processToken c t = c := by
  unfold processToken
  rw [if_neg h0, if_pos (by rw [h1, h2]; rfl), h3]

/-- C9. Parsing any configuration string yields a `SensorConfig` (the
parser is a total function whose fixed fields survive the token loop
untouched); a malformed generic-sensor token is skipped independently,
leaving the remaining tokens' parse unchanged; and the listed pathological
inputs (empty string, lone `-`, unbalanced parentheses and fragments with
non-numeric bounds produced by the comma split, min ≥ max, wrong field
count) all produce usable configurations. -/
theorem C9_parser_total_and_skips :
    (∀ (p ss env : String) (sk : Bool),
        (newSensorConfigWithEnv p ss env sk).primarySensor = p
        ∧ (newSensorConfigWithEnv p ss env sk).skipCollection = sk)
    ∧ (∀ (c : SensorConfig) (t msg : String),
        goTrim t ≠ "" → goHasPre (goTrim t) "(" = true →
        goHasSuf (goTrim t) ")" = true →
        parseGenericSensor (goTrim t) = .error msg → processToken c t = c)
    ∧ (∀ (c : SensorConfig) (l1 l2 : List String) (t msg : String),
        goTrim t ≠ "" → goHasPre (goTrim t) "(" = true →
        goHasSuf (goTrim t) ")" = true →
        parseGenericSensor (goTrim t) = .error msg →
        List.foldl processToken c (l1 ++ t :: l2) =
          List.foldl processToken c (l1 ++ l2))
    ∧ newSensorConfigWithEnv "" "" "" false = ⟨[], [], "", false, false, false⟩
    ∧ newSensorConfigWithEnv "" "" "-" false = ⟨[], [], "", true, false, false⟩
    ∧ newSensorConfigWithEnv "" "" "cpu,(bad),gpu" false =
        newSensorConfigWithEnv "" "" "cpu,gpu" false
    ∧ parseGenericSensor "(bad)" = .error "expected 4 parts"
    ∧ parseGenericSensor "(p,Pa,x,0)" = .error "invalid maximum value"
    ∧ (newSensorConfigWithEnv "" "" "(p,Pa,x,0),fan" false).genericSensors = [] := by
  refine ⟨?_, ?_, ?_, by decide, by decide, by decide, rfl, rfl, by decide⟩
  · intro p ss env sk
    unfold newSensorConfigWithEnv
    exact ⟨(processTokens_frame _ _).1, (processTokens_frame _ _).2⟩
  · intro c t msg h0 h1 h2 h3
    exact processToken_skips_bad_generic c t msg h0 h1 h2 h3
  · intro c l1 l2 t msg h0 h1 h2 h3
    rw [List.foldl_append, List.foldl_append, List.foldl_cons,
      processToken_skips_bad_generic _ t msg h0 h1 h2 h3]

/-- Witness for C9 at the malformed token `(bad)`. -/
theorem C9_witness :
    processToken emptyConfig "(bad)" = emptyConfig
    ∧ List.foldl processToken emptyConfig ["cpu", "(bad)", "gpu"] =
        List.foldl processToken emptyConfig ["cpu", "gpu"] :=
  ⟨C9_parser_total_and_skips.2.1 emptyConfig "(bad)" "expected 4 parts"
      (by decide) (by decide) (by decide) rfl,
   C9_parser_total_and_skips.2.2.1 emptyConfig ["cpu"] ["gpu"] "(bad)"
      "expected 4 parts" (by decide) (by decide) (by decide) rfl⟩

unseal Rat.mul Rat.inv Rat.add Rat.sub in
/-- The concrete value of the `voltageConfig` fixture. -/
theorem voltageConfig_val :
    voltageConfig =
      ⟨[], [("voltage", ⟨"voltage", "V", 25 / 2, 1 / 2⟩)], "", false, false, false⟩ := by
  decide

/-- Once the generic-sensor map is allocated, the sensor loop never
de-allocates it. -/
theorem genStep_preserves_alloc (fs : String → Option DirEntry)
    (l : List (String × GenericSensorConfig)) (s : Stats)
    (h : s.GenericSensors ≠ none) :
    (List.foldl (genStep fs) s l).GenericSensors ≠ none := by
  induction l generalizing s with
  | nil => exact h
  | cons x xs ih =>
    rw [List.foldl_cons]
    apply ih
    unfold genStep
    cases collectGenericSensorValue fs x.1 with
    | error e => exact h
    | ok v =>
      dsimp only
      by_cases hr : v < x.2.Minimum ∨ v > x.2.Maximum
      · rw [if_pos hr]
        exact h
      · rw [if_neg hr]
        simp

unseal Rat.mul Rat.inv Rat.add Rat.sub in
/-- C5 counterexample. With one configured generic sensor whose read fails
(the backing entry is absent), the cycle still allocates the snapshot's
generic-sensor map (it becomes an allocated empty map, not `nil`): the map
is allocated up front, before any read, not lazily on first successful
write. -/
theorem C5_counterexample :
    (updateGenericSensors voltageConfig (fun _ => none) ⟨none, none⟩).GenericSensors =
      some []
    ∧ voltageConfig.genericSensors.length = 1
    ∧ collectGenericSensorValue (fun _ => none) "voltage" =
        .error "sensor file not found" := by
  refine ⟨by decide, by decide, rfl⟩

/-- C5 as amended: the generic-sensor map is never touched when no generic
sensor is configured, and is allocated (if `nil`) at the start of any cycle
with at least one configured generic sensor — even if every read fails that
cycle, the map ends up allocated. -/
theorem C5_allocation (config : SensorConfig) (fs : String → Option DirEntry)
    (stats : Stats) :
    (config.genericSensors = [] → updateGenericSensors config fs stats = stats)
    ∧ (config.genericSensors ≠ [] →
        (updateGenericSensors config fs stats).GenericSensors ≠ none) := by
  constructor
  · intro h
    unfold updateGenericSensors
    rw [h]
    simp
  · intro h
    unfold updateGenericSensors
    rw [if_neg (fun hl => h (List.length_eq_zero.1 hl))]
    apply genStep_preserves_alloc
    by_cases hg : stats.GenericSensors = none
    · rw [if_pos hg]
      simp
    · rw [if_neg hg]
      exact hg

/-- Witness for C5 at the `voltage` fixture and the empty configuration. -/
theorem C5_witness :
    (updateGenericSensors voltageConfig (fun _ => none) ⟨none, none⟩).GenericSensors ≠ none
    ∧ updateGenericSensors emptyConfig (fun _ => none) ⟨none, none⟩ = ⟨none, none⟩ :=
  ⟨(C5_allocation voltageConfig (fun _ => none) ⟨none, none⟩).2
      (by rw [voltageConfig_val]; simp),
   (C5_allocation emptyConfig (fun _ => none) ⟨none, none⟩).1 rfl⟩

unseal Rat.mul Rat.inv Rat.add Rat.sub in
/-- C8. A successfully read generic-sensor value `v` is stored iff
`minimum ≤ v ≤ maximum` (bounds inclusive) — never clamped or partially
stored; and for the `(voltage,V,12.5,0.5)` definition, a backing value of
`13.0` is rejected (absent from the output) while `11.8` is stored as
`{value 11.8, unit "V", min 0.5, max 12.5}`. -/
theorem C8_range_validation :
    (∀ (fs : String → Option DirEntry) (stats : Stats) (name : String)
        (d : GenericSensorConfig) (v : ℚ),
        collectGenericSensorValue fs name = .ok v →
        genStep fs stats (name, d) =
          (if d.Minimum ≤ v ∧ v ≤ d.Maximum then
             { stats with
                 GenericSensors := some (insertKV (stats.GenericSensors.getD []) name
                   ⟨twoDecimals v, d.Unit, d.Minimum, d.Maximum⟩) }
           else stats))
    ∧ parseGenericSensor "(voltage,V,12.5,0.5)" = .ok ⟨"voltage", "V", 25 / 2, 1 / 2⟩
    ∧ (updateGenericSensors voltageConfig (fsWith "13.0") ⟨none, none⟩).GenericSensors =
        some []
    ∧ (updateGenericSensors voltageConfig (fsWith "11.8") ⟨none, none⟩).GenericSensors =
        some [("voltage", ⟨59 / 5, "V", 1 / 2, 25 / 2⟩)] := by
  refine ⟨?_, by decide, by decide, by decide⟩
  intro fs stats name d v hok
  unfold genStep
  rw [hok]
  dsimp only
  by_cases hr : d.Minimum ≤ v ∧ v ≤ d.Maximum
  · rw [if_pos hr, if_neg (not_or.2 ⟨not_lt.2 hr.1, not_lt.2 hr.2⟩)]
  · rw [if_neg hr, if_pos ?_]
    rcases not_and_or.1 hr with hl | hl
    · exact Or.inl (not_le.1 hl)
    · exact Or.inr (not_le.1 hl)

unseal Rat.mul Rat.inv Rat.add Rat.sub in
/-- Witness for C8 at the `voltage` definition with backing value `11.8`. -/
theorem C8_witness :
    genStep (fsWith "11.8") ⟨none, none⟩ ("voltage", ⟨"voltage", "V", 25 / 2, 1 / 2⟩) =
      (⟨none, some [("voltage", ⟨59 / 5, "V", 1 / 2, 25 / 2⟩)]⟩ : Stats) := by
  have h := C8_range_validation.1 (fsWith "11.8") ⟨none, none⟩ "voltage"
    ⟨"voltage", "V", 25 / 2, 1 / 2⟩ (59 / 5) (by decide)
  rw [h, if_pos (by norm_num)]
  decide

/-- A reading with `1 ≤ v < 200` that the filter accepts under a
configuration without a primary sensor is stored under its computed output
key, and the dashboard maximum is updated. -/
theorem tempStep_stores (config : SensorConfig) (acc : TempAcc) (i : Nat)
    (k : String) (v : ℚ) (h1 : 1 ≤ v) (h2 : v < 200)
    (hvalid : isValidSensor (outName acc.temps k i) config = true)
    (hprim : config.primarySensor = "") :
    tempStep config (fun _ => false) acc (i, ⟨k, v⟩) =
      ⟨insertKV acc.temps (outName acc.temps k i) (twoDecimals v), max acc.dash v⟩ := by
  have heff : effectiveTemp v = v := by
    unfold effectiveTemp
    rw [if_neg]
    rintro ⟨-, hlt⟩
    exact absurd h1 (not_le.2 hlt)
  have himp : ¬ implausibleTemp v := by
    unfold implausibleTemp
    rintro (h | h)
    · exact absurd h (not_le.2 (lt_of_lt_of_le zero_lt_one h1))
    · exact absurd h (not_le.2 h2)
  unfold tempStep
  dsimp only
  rw [heff, if_neg himp, hvalid]
  rw [if_pos rfl, hprim, if_pos rfl]
  simp

/-- Key lookup on a map whose first binding carries the key, whatever its
value. -/
theorem hasKey_head (k : String) (v : α) (l : List (String × α)) :
    hasKey ((k, v) :: l) k = true := by
  simp [hasKey]

/-- Output key when the sensor key is absent from the map so far. -/
theorem outName_absent (temps : List (String × ℚ)) (k : String) (i : Nat)
    (h : hasKey temps k = false) : outName temps k i = k := by
  unfold outName
  rw [h]
  rfl

/-- Output key when the sensor key is already present: the reading's own
0-based source index is appended. -/
theorem outName_present (temps : List (String × ℚ)) (k : String) (i : Nat)
    (h : hasKey temps k = true) : outName temps k i = k ++ "_" ++ toString i := by
  unfold outName
  rw [h]
  rfl

/-- Insertion of a fresh key appends the binding. -/
theorem insertKV_absent {α : Type} (l : List (String × α)) (k : String) (v : α)
    (h : hasKey l k = false) : insertKV l k v = l ++ [(k, v)] := by
  unfold insertKV
  rw [show l.any (fun p => p.1 == k) = false from h]
  rfl

unseal Rat.mul Rat.inv Rat.add Rat.sub in
/-- C6 counterexample. For the source sequence `[fan 30, core 40, core 50]` —
which contains exactly two raw readings sharing the key `core` — the stored
output keys for those two readings are `core` and `core_2` (the second
reading's own 0-based source index is `2`), not `core` and `core_1` as the
claim states for every such sequence. -/
theorem C6_counterexample :
    updateTemperatures emptyConfig (fun _ => false)
      (fun _ => .returns [⟨"fan", 30⟩, ⟨"core", 40⟩, ⟨"core", 50⟩] none)
      ⟨none, none⟩ 0 =
      (⟨some [("fan", 30), ("core", 40), ("core_2", 50)], none⟩, 50, 1)
    ∧ (List.filter (fun s => s.SensorKey == "core")
        [(⟨"fan", 30⟩ : TemperatureStat), ⟨"core", 40⟩, ⟨"core", 50⟩]).length = 2 := by
  exact ⟨by decide, by decide⟩

/-- C6 as amended: each reading processed at 0-based source index `i` is
stored under its key when that key is not yet in the snapshot's temperature
map, and under `key_<i>` (the reading's own source index) otherwise; for a
source sequence of exactly two readings sharing the key `core` the stored
keys are `core` and `core_1` in source order, while a third leading reading
shifts the suffix of the repeated key to `core_2`. -/
theorem C6_dedup_amended (v0 v1 vf : ℚ)
    (h0 : 1 ≤ v0) (h0' : v0 < 200) (h1 : 1 ≤ v1) (h1' : v1 < 200)
    (hf : 1 ≤ vf) (hf' : vf < 200) :
    (updateTemperatures emptyConfig (fun _ => false)
        (fun _ => .returns [⟨"core", v0⟩, ⟨"core", v1⟩] none)
        ⟨none, none⟩ 0).1.Temperatures =
      some [("core", twoDecimals v0), ("core_1", twoDecimals v1)]
    ∧ (updateTemperatures emptyConfig (fun _ => false)
        (fun _ => .returns [⟨"fan", vf⟩, ⟨"core", v0⟩, ⟨"core", v1⟩] none)
        ⟨none, none⟩ 0).1.Temperatures =
      some [("fan", twoDecimals vf), ("core", twoDecimals v0),
        ("core_2", twoDecimals v1)] := by
  have s0 : tempStep emptyConfig (fun _ => false) ⟨[], 0⟩ (0, ⟨"core", v0⟩) =
      ⟨[("core", twoDecimals v0)], max 0 v0⟩ := by
    rw [tempStep_stores _ _ _ _ _ h0 h0' (by decide) rfl,
      outName_absent _ _ _ (by decide), insertKV_absent _ _ _ (by decide)]
    rfl
  have e1 : outName [("core", twoDecimals v0)] "core" 1 = "core_1" := by
    rw [outName_present _ _ _ (hasKey_head _ _ _)]
    rfl
  have s1 : tempStep emptyConfig (fun _ => false)
      ⟨[("core", twoDecimals v0)], max 0 v0⟩ (1, ⟨"core", v1⟩) =
      ⟨[("core", twoDecimals v0), ("core_1", twoDecimals v1)], max (max 0 v0) v1⟩ := by
    rw [tempStep_stores _ _ _ _ _ h1 h1' (by rw [e1]; decide) rfl, e1,
      insertKV_absent _ _ _ (by simp [hasKey])]
    rfl
  have t0 : tempStep emptyConfig (fun _ => false) ⟨[], 0⟩ (0, ⟨"fan", vf⟩) =
      ⟨[("fan", twoDecimals vf)], max 0 vf⟩ := by
    rw [tempStep_stores _ _ _ _ _ hf hf' (by decide) rfl,
      outName_absent _ _ _ (by decide), insertKV_absent _ _ _ (by decide)]
    rfl
  have e2 : outName [("fan", twoDecimals vf)] "core" 1 = "core" :=
    outName_absent _ _ _ (by simp [hasKey])
  have t1 : tempStep emptyConfig (fun _ => false)
      ⟨[("fan", twoDecimals vf)], max 0 vf⟩ (1, ⟨"core", v0⟩) =
      ⟨[("fan", twoDecimals vf), ("core", twoDecimals v0)], max (max 0 vf) v0⟩ := by
    rw [tempStep_stores _ _ _ _ _ h0 h0' (by rw [e2]; decide) rfl, e2,
      insertKV_absent _ _ _ (by simp [hasKey])]
    rfl
  have e3 : outName [("fan", twoDecimals vf), ("core", twoDecimals v0)] "core" 2 =
      "core_2" := by
    rw [outName_present _ _ _ (by simp [hasKey])]
    rfl
  have t2 : tempStep emptyConfig (fun _ => false)
      ⟨[("fan", twoDecimals vf), ("core", twoDecimals v0)], max (max 0 vf) v0⟩
      (2, ⟨"core", v1⟩) =
      ⟨[("fan", twoDecimals vf), ("core", twoDecimals v0), ("core_2", twoDecimals v1)],
        max (max (max 0 vf) v0) v1⟩ := by
    rw [tempStep_stores _ _ _ _ _ h1 h1' (by rw [e3]; decide) rfl, e3,
      insertKV_absent _ _ _ (by simp [hasKey])]
    rfl
  constructor
  · unfold updateTemperatures
    rw [if_neg (by decide : ¬ emptyConfig.skipCollection = true)]
    dsimp only [getTempsWithPanicRecovery, finishTemps]
    rw [if_neg (by simp : ¬ ([(⟨"core", v0⟩ : TemperatureStat), ⟨"core", v1⟩].length = 0))]
    dsimp only
    rw [show enumFromIdx 0 [(⟨"core", v0⟩ : TemperatureStat), ⟨"core", v1⟩] =
        [(0, ⟨"core", v0⟩), (1, ⟨"core", v1⟩)] from rfl]
    rw [List.foldl_cons, s0, List.foldl_cons, s1, List.foldl_nil]
  · unfold updateTemperatures
    rw [if_neg (by decide : ¬ emptyConfig.skipCollection = true)]
    dsimp only [getTempsWithPanicRecovery, finishTemps]
    rw [if_neg (by simp : ¬ ([(⟨"fan", vf⟩ : TemperatureStat), ⟨"core", v0⟩,
      ⟨"core", v1⟩].length = 0))]
    dsimp only
    rw [show enumFromIdx 0 [(⟨"fan", vf⟩ : TemperatureStat), ⟨"core", v0⟩, ⟨"core", v1⟩] =
        [(0, ⟨"fan", vf⟩), (1, ⟨"core", v0⟩), (2, ⟨"core", v1⟩)] from rfl]
    rw [List.foldl_cons, t0, List.foldl_cons, t1, List.foldl_cons, t2, List.foldl_nil]

unseal Rat.mul Rat.inv Rat.add Rat.sub in
/-- Witness for C6 at concrete readings `core 40, core 50`. -/
theorem C6_witness :
    (updateTemperatures emptyConfig (fun _ => false)
        (fun _ => .returns [⟨"core", 40⟩, ⟨"core", 50⟩] none)
        ⟨none, none⟩ 0).1.Temperatures =
      some [("core", (40 : ℚ)), ("core_1", (50 : ℚ))] := by
  have h := (C6_dedup_amended 40 50 30 (by norm_num) (by norm_num) (by norm_num)
    (by norm_num) (by norm_num) (by norm_num)).1
  rw [h]
  decide

/-- C4. When the external temperature source panics on the first call and
the retry also panics, the collector makes exactly 2 source calls (retries
exactly once, never consulting later outcomes), resets the dashboard
temperature, clears the snapshot's temperature map iff it was previously
non-empty, touches nothing else in the snapshot, and the cycle still runs
the generic sensor collector to completion. -/
theorem C4_retry_once_then_clear (config : SensorConfig) (skipKey : String → Bool)
    (source : Nat → CallOutcome) (fs : String → Option DirEntry) (stats : Stats)
    (dash : ℚ) (m1 m2 : String)
    (hskip : config.skipCollection = false)
    (h1 : source 0 = .panics m1) (h2 : source 1 = .panics m2) :
    updateTemperatures config skipKey source stats dash =
      ((if 0 < mapLen stats.Temperatures then { stats with Temperatures := some [] }
        else stats), 0, 2)
    ∧ (updateTemperatures config skipKey source stats dash).1.GenericSensors =
        stats.GenericSensors
    ∧ (∀ source2 : Nat → CallOutcome, source2 0 = source 0 → source2 1 = source 1 →
        updateTemperatures config skipKey source2 stats dash =
          updateTemperatures config skipKey source stats dash)
    ∧ collectCycle config skipKey source fs stats dash =
        (updateGenericSensors config fs
          (updateTemperatures config skipKey source stats dash).1, 0, 2) := by
  have hrun : updateTemperatures config skipKey source stats dash =
      ((if 0 < mapLen stats.Temperatures then { stats with Temperatures := some [] }
        else stats), 0, 2) := by
    unfold updateTemperatures
    rw [if_neg (by simp [hskip]), h1, h2]
    dsimp only [getTempsWithPanicRecovery]
  refine ⟨hrun, ?_, ?_, ?_⟩
  · rw [hrun]
    dsimp only
    split <;> rfl
  · intro source2 e0 e1
    unfold updateTemperatures
    rw [e0, e1]
  · unfold collectCycle
    rw [hrun]

unseal Rat.mul Rat.inv Rat.add Rat.sub in
/-- Witness for C4: a double-panicking source, a previously non-empty
temperature map, and a configuration parsed from `x`. -/
theorem C4_witness :
    updateTemperatures (newSensorConfigWithEnv "" "" "x" false) (fun _ => false)
      (fun _ => .panics "p") ⟨some [("a", 25)], none⟩ 7 = (⟨some [], none⟩, 0, 2) := by
  have h := (C4_retry_once_then_clear (newSensorConfigWithEnv "" "" "x" false)
    (fun _ => false) (fun _ => .panics "p") (fun _ => none)
    ⟨some [("a", 25)], none⟩ 7 "p" "p" (by decide) rfl rfl).1
  rw [h]
  decide

end BeszelAgent
